import Mathlib

/-!
Shallow embedding of the `rust-kube-operator` controller
(src/src/operator.rs, src/src/deployment.rs, src/src/lib.rs).

External effects (the Kubernetes resource store, event recorder, metrics
registry) are modelled by passing the store's answer to each call as an
explicit argument, and by returning a trace of the workload submissions the
code performs.  Rust panics (`unwrap`, `expect`, `assert_eq!`) are a third
outcome alongside `Ok` and `Err`.
-/

namespace RustKubeOperator

/-- `ApplicationSpec` (operator.rs lines 37-41). -/
structure ApplicationSpec where
  name : String
  image : String
  deploy : Bool
deriving Repr, DecidableEq

/-- `ApplicationState` (operator.rs lines 26-30). -/
inductive ApplicationState where
  | Running
  | Starting
  | Failed
deriving Repr, DecidableEq

/-- `ApplicationStatus` (operator.rs lines 45-48). -/
structure ApplicationStatus where
  state : ApplicationState
  deployed : Bool
deriving Repr, DecidableEq

/-- The `Application` custom resource generated by `#[derive(CustomResource)]`
(operator.rs line 34): object metadata (name, optional namespace, as
`ResourceExt::name_any` / `ResourceExt::namespace` expose them), the spec and
the optional status subresource. -/
structure Application where
  metadata_name : String
  metadata_namespace : Option String
  spec : ApplicationSpec
  status : Option ApplicationStatus
deriving Repr, DecidableEq

/-- JSON values, as built by the `serde_json::json!` literal in
`create_deployment` (deployment.rs lines 16-46). -/
inductive Json where
  | str (s : String)
  | num (n : Int)
  | bool (b : Bool)
  | arr (elems : List Json)
  | obj (fields : List (String × Json))

/-- Field lookup in a JSON object, as serde field resolution does. -/
def jlookup (fields : List (String × Json)) (key : String) : Option Json :=
  fields.lookup key

def Json.asStr : Json → Option String
  | .str s => some s
  | _ => none

def Json.asInt : Json → Option Int
  | .num n => some n
  | _ => none

def Json.asObj : Json → Option (List (String × Json))
  | .obj fs => some fs
  | _ => none

def Json.asArr : Json → Option (List Json)
  | .arr xs => some xs
  | _ => none

/-- A `BTreeMap<String, String>` label map, as deserialized by serde:
every value must be a JSON string. -/
def parseLabels (j : Json) : Option (List (String × String)) := do
  let fs ← j.asObj
  fs.mapM (fun kv => do
    let s ← kv.2.asStr
    pure (kv.1, s))

/-- `k8s_openapi ... core::v1::Container`: `name` is required,
`image` is optional. -/
structure Container where
  name : String
  image : Option String
deriving Repr, DecidableEq

/-- `core::v1::PodSpec`: `containers` is required. -/
structure PodSpec where
  containers : List Container
deriving Repr, DecidableEq

/-- `core::v1::PodTemplateSpec`: both fields optional. -/
structure PodTemplateSpec where
  labels : Option (List (String × String))
  podSpec : Option PodSpec
deriving Repr, DecidableEq

/-- `meta::v1::LabelSelector`: `matchLabels` optional. -/
structure LabelSelector where
  matchLabels : Option (List (String × String))
deriving Repr, DecidableEq

/-- `apps::v1::DeploymentSpec`: `selector` and `template` required,
`replicas` optional. -/
structure DeploymentSpec where
  replicas : Option Int
  selector : LabelSelector
  template : PodTemplateSpec
deriving Repr, DecidableEq

/-- `meta::v1::ObjectMeta` (the fields this program uses): optional name
and labels. -/
structure ObjectMeta where
  name : Option String
  labels : Option (List (String × String))
deriving Repr, DecidableEq

/-- `apps::v1::Deployment`: optional metadata and spec (apiVersion and kind
are validated during deserialization, not stored). -/
structure Deployment where
  metadata : ObjectMeta
  spec : Option DeploymentSpec
deriving Repr, DecidableEq

/-- `ResourceExt::name_any` on a `Deployment`: the metadata name, defaulting
to the empty string. -/
def Deployment.name_any (d : Deployment) : String :=
  d.metadata.name.getD ""

def parseContainer (j : Json) : Option Container := do
  let fs ← j.asObj
  let nameJ ← jlookup fs "name"
  let name ← nameJ.asStr
  let image ← match jlookup fs "image" with
    | none => pure none
    | some v => do pure (some (← v.asStr))
  pure ⟨name, image⟩

def parsePodSpec (j : Json) : Option PodSpec := do
  let fs ← j.asObj
  let csJ ← jlookup fs "containers"
  let cs ← csJ.asArr
  let containers ← cs.mapM parseContainer
  pure ⟨containers⟩

def parseObjectMeta (j : Json) : Option ObjectMeta := do
  let fs ← j.asObj
  let name ← match jlookup fs "name" with
    | none => pure none
    | some v => do pure (some (← v.asStr))
  let labels ← match jlookup fs "labels" with
    | none => pure none
    | some v => do pure (some (← parseLabels v))
  pure ⟨name, labels⟩

def parseTemplate (j : Json) : Option PodTemplateSpec := do
  let fs ← j.asObj
  let labels ← match jlookup fs "metadata" with
    | none => pure none
    | some m => do
        let mfs ← m.asObj
        match jlookup mfs "labels" with
        | none => pure none
        | some v => do pure (some (← parseLabels v))
  let ps ← match jlookup fs "spec" with
    | none => pure none
    | some v => do pure (some (← parsePodSpec v))
  pure ⟨labels, ps⟩

def parseSelector (j : Json) : Option LabelSelector := do
  let fs ← j.asObj
  let ml ← match jlookup fs "matchLabels" with
    | none => pure none
    | some v => do pure (some (← parseLabels v))
  pure ⟨ml⟩

def parseDeploymentSpec (j : Json) : Option DeploymentSpec := do
  let fs ← j.asObj
  let replicas ← match jlookup fs "replicas" with
    | none => pure none
    | some v => do pure (some (← v.asInt))
  let selJ ← jlookup fs "selector"
  let selector ← parseSelector selJ
  let tplJ ← jlookup fs "template"
  let template ← parseTemplate tplJ
  pure ⟨replicas, selector, template⟩

/-- `serde_json::from_value::<Deployment>` on the value built in
`create_deployment` (deployment.rs line 16): k8s_openapi validates
`apiVersion`/`kind` against the resource's constants and deserializes
the typed fields; `none` models a `serde_json::Error`. -/
def deploymentOfJson (j : Json) : Option Deployment := do
  let fs ← j.asObj
  let avJ ← jlookup fs "apiVersion"
  let av ← avJ.asStr
  if av = "apps/v1" then
    let kJ ← jlookup fs "kind"
    let k ← kJ.asStr
    if k = "Deployment" then
      let metadata ← match jlookup fs "metadata" with
        | none => pure ⟨none, none⟩
        | some v => parseObjectMeta v
      let spec ← match jlookup fs "spec" with
        | none => pure none
        | some v => do pure (some (← parseDeploymentSpec v))
      pure ⟨metadata, spec⟩
    else none
  else none

/-- The `serde_json::json!` literal of `create_deployment`
(deployment.rs lines 16-46), field for field. -/
def buildDeploymentJson (application_spec : ApplicationSpec) : Json :=
  .obj [
    ("apiVersion", .str "apps/v1"),
    ("kind", .str "Deployment"),
    ("metadata", .obj [
      ("name", .str application_spec.name),
      ("labels", .obj [("app", .str "nginx")])]),
    ("spec", .obj [
      ("replicas", .num 2),
      ("selector", .obj [
        ("matchLabels", .obj [("app", .str "nginx")])]),
      ("template", .obj [
        ("metadata", .obj [
          ("labels", .obj [("app", .str "nginx")])]),
        ("spec", .obj [
          ("containers", .arr [
            .obj [
              ("name", .str application_spec.name),
              ("image", .str application_spec.image)]])])])])]

/-- The deployment descriptor in fully deserialized form. -/
def builtDeployment (s : ApplicationSpec) : Deployment :=
  { metadata := ⟨some s.name, some [("app", "nginx")]⟩,
    spec := some
      { replicas := some 2,
        selector := ⟨some [("app", "nginx")]⟩,
        template :=
          ⟨some [("app", "nginx")], some ⟨[⟨s.name, some s.image⟩]⟩⟩ } }

theorem deploymentOfJson_build (s : ApplicationSpec) :
    deploymentOfJson (buildDeploymentJson s) = some (builtDeployment s) := by
  rfl

/-- `kube::Error` as the code distinguishes it (deployment.rs lines 55-56):
an API error response carrying an HTTP status code, or any other failure
(transport, auth, ...). -/
inductive KubeError where
  | Api (code : Nat)
  | other (tag : String)
deriving Repr, DecidableEq

/-- Result of running a Rust function that may return `Ok`, return `Err`,
or panic (`unwrap` / `expect` / `assert_eq!`). -/
inductive RustOutcome (ε α : Type) where
  | ok (a : α)
  | err (e : ε)
  | panic (msg : String)
deriving Repr, DecidableEq

/-- `either::Either`, the return type of `Api::delete`. -/
inductive KEither (α β : Type) where
  | left (a : α)
  | right (b : β)
deriving Repr, DecidableEq

/-- `meta::v1::Status` returned on the right of a completed delete. -/
structure KStatus where
  message : String
deriving Repr, DecidableEq

/-- The workload submissions a run performs against the store. -/
inductive WorkloadCall where
  | create
  | delete
deriving Repr, DecidableEq

/-- An outcome together with the trace of workload submissions made. -/
abbrev Traced (α : Type) := RustOutcome KubeError α × List WorkloadCall

/-- The store's answers to the calls `create_deployment` makes:
`deployments.create` (line 49), `deployments.get_opt` (line 60) and
`recorder.publish` (lines 62 and 73). -/
structure CreateDeploymentResponses where
  createResp : Except KubeError Deployment
  getResp : Except KubeError (Option Deployment)
  publishResp : Except KubeError Unit

/-- `create_deployment` (deployment.rs lines 13-85).  Builds the descriptor
(`expect` panics if deserialization fails), submits it: on `Ok` it asserts the
returned name matches, on `Err(Api(ae))` it asserts `ae.code == 409` (panicking
otherwise), on any other `Err(e)` it returns the error.  It then gets the
deployment back and publishes a Normal or Warning event, `?`-propagating
failures of either call, and returns `Ok(())`. -/
def create_deployment (application_spec : ApplicationSpec) (_ns : String)
    (r : CreateDeploymentResponses) : Traced Unit :=
  match deploymentOfJson (buildDeploymentJson application_spec) with
  | none => (.panic "Something is wrong with the deployment", [])
  | some deployment =>
    let submit : RustOutcome KubeError Unit :=
      match r.createResp with
      | .ok o =>
        if o.name_any = deployment.name_any then .ok ()
        else .panic "assertion failed: deployment.name_any() == name"
      | .error (.Api code) =>
        if code = 409 then .ok ()
        else .panic "assertion failed: ae.code == 409"
      | .error e => .err e
    match submit with
    | .ok _ =>
      match r.getResp with
      | .error e => (.err e, [.create])
      | .ok _found =>
        match r.publishResp with
        | .error e => (.err e, [.create])
        | .ok _ => (.ok (), [.create])
    | .err e => (.err e, [.create])
    | .panic m => (.panic m, [.create])

/-- `cleanup_deployment` (deployment.rs lines 87-98): submits
`deployments.delete` by name and `?`-propagates any failure; on success it
only logs either side of the returned `Either` and returns `Ok(())`. -/
def cleanup_deployment (_application_spec : ApplicationSpec) (_ns : String)
    (deleteResp : Except KubeError (KEither Deployment KStatus)) : Traced Unit :=
  match deleteResp with
  | .error e => (.err e, [.delete])
  | .ok _ => (.ok (), [.delete])

/-- `Application::was_deployed` (operator.rs lines 54-56):
`self.status.as_ref().map(|s| s.deployed).unwrap_or(false)`. -/
def Application.was_deployed (self : Application) : Bool :=
  (self.status.map (fun s => s.deployed)).getD false

/-- The store's answers to the calls `handle_deployment` may make: the
answers needed by `create_deployment`, the answer to the delete made by
`cleanup_deployment`, and the answer to the event publish that follows
either branch (operator.rs lines 171 and 181). -/
structure HandleDeploymentResponses where
  createR : CreateDeploymentResponses
  deleteR : Except KubeError (KEither Deployment KStatus)
  publishR : Except KubeError Unit

/-- `handle_deployment` (operator.rs lines 167-192): if
`app.was_deployed() && should_deploy` call `create_deployment` then publish a
`CreatingDeployment` event; else if `app.was_deployed() && !should_deploy`
call `cleanup_deployment` then publish a `DeletingDeployment` event; else do
nothing.  Every `?` propagates. -/
def handle_deployment (app : Application) (ns : String)
    (r : HandleDeploymentResponses) : Traced Unit :=
  let should_deploy := app.spec.deploy
  if app.was_deployed && should_deploy then
    match create_deployment app.spec ns r.createR with
    | (.ok _, t) =>
      match r.publishR with
      | .ok _ => (.ok (), t)
      | .error e => (.err e, t)
    | out => out
  else if app.was_deployed && !should_deploy then
    match cleanup_deployment app.spec ns r.deleteR with
    | (.ok _, t) =>
      match r.publishR with
      | .ok _ => (.ok (), t)
      | .error e => (.err e, t)
    | out => out
  else (.ok (), [])

/-- `kube::runtime::controller::Action`
(`Action::requeue(d)` / `Action::await_change()`). -/
inductive Action where
  | requeue (secs : Nat)
  | awaitChange
deriving Repr, DecidableEq

/-- The server-side-apply patch submitted by `Application::reconcile`
(operator.rs lines 87-96): the `Patch::Apply` document together with the
`PatchParams::apply("cntrlr").force()` parameters. -/
structure PatchApply where
  apiVersion : String
  kind : String
  status : ApplicationStatus
  fieldManager : String
  force : Bool
deriving Repr, DecidableEq

/-- The store's answers to the calls `Application::reconcile` makes. -/
structure ReconcileResponses where
  handleR : HandleDeploymentResponses
  patchStatusR : Except KubeError Application

/-- What a run of `Application::reconcile` produced: the returned value, the
workload submissions made, and the status patch submitted to the store
(`none` when the run aborted before `apps.patch_status`). -/
structure ReconcileResult where
  outcome : RustOutcome KubeError Action
  workloadCalls : List WorkloadCall
  statusPatch : Option PatchApply

/-- `Application::reconcile` (operator.rs lines 58-100): unwraps the
namespace (line 64, panicking when absent), runs `handle_deployment`
(`?`-propagating its failure, line 71), then unconditionally submits the
status patch `{state: Running, deployed: should_deploy}` via
`PatchParams::apply("cntrlr").force()` (lines 87-96, `?`-propagating its
failure) and returns `Action::requeue(5 * 60)` seconds (line 99). -/
def Application.reconcile (self : Application) (r : ReconcileResponses) :
    ReconcileResult :=
  match self.metadata_namespace with
  | none => ⟨.panic "called Option::unwrap() on a None value", [], none⟩
  | some ns =>
    let application_state := ApplicationState.Running
    let should_deploy := self.spec.deploy
    match handle_deployment self ns r.handleR with
    | (.ok _, calls) =>
      let new_status : PatchApply :=
        ⟨"per.naess/v1alpha1", "Application",
         ⟨application_state, should_deploy⟩, "cntrlr", true⟩
      match r.patchStatusR with
      | .ok _ => ⟨.ok (.requeue (5 * 60)), calls, some new_status⟩
      | .error e => ⟨.err e, calls, some new_status⟩
    | (.err e, calls) => ⟨.err e, calls, none⟩
    | (.panic m, calls) => ⟨.panic m, calls, none⟩

/-- The store's answers to the calls `Application::cleanup` makes: the
delete submitted by `cleanup_deployment` and the `DeleteApplication` event
publish. -/
structure CleanupResponses where
  deleteR : Except KubeError (KEither Deployment KStatus)
  publishR : Except KubeError Unit

/-- `Application::cleanup` (operator.rs lines 103-123): unwraps the namespace
(line 109, panicking when absent), runs `cleanup_deployment`
(`?`-propagating), publishes a `DeleteApplication` event (`?`-propagating)
and returns `Action::await_change()`. -/
def Application.cleanup (self : Application) (r : CleanupResponses) :
    Traced Action :=
  match self.metadata_namespace with
  | none => (.panic "called Option::unwrap() on a None value", [])
  | some ns =>
    match cleanup_deployment self.spec ns r.deleteR with
    | (.ok _, t) =>
      match r.publishR with
      | .ok _ => (.ok Action.awaitChange, t)
      | .error e => (.err e, t)
    | (.err e, t) => (.err e, t)
    | (.panic m, t) => (.panic m, t)

/-- `kube::runtime::finalizer::Error`, the phase annotation the finalizer
helper wraps handler failures in. -/
inductive FinalizerErr where
  | ApplyFailed (e : KubeError)
  | CleanupFailed (e : KubeError)
  | AddFinalizer (e : KubeError)
  | RemoveFinalizer (e : KubeError)
deriving Repr, DecidableEq

/-- The crate's `Error` type (lib.rs lines 4-10). -/
inductive Error where
  | FinalizerError (e : FinalizerErr)
  | SerializationError (tag : String)
deriving Repr, DecidableEq

/-- `kube::runtime::finalizer::Event`: which lifecycle event the finalizer
state machine dispatched for this object. -/
inductive FinalizerEvent where
  | Apply
  | Cleanup
deriving Repr, DecidableEq

/-- The Prometheus counters of `Metrics` (operator.rs lines 196-200) that
the reconcile path touches. -/
structure Metrics where
  reconciliations : Nat
  failures : Nat
deriving Repr, DecidableEq

/-- The top-level `reconcile` (operator.rs lines 138-165): increments the
`reconciliations` counter, unwraps the namespace (line 145, panicking when
absent), then dispatches through `finalizer` — `Apply` runs
`Application::reconcile` and `Cleanup` runs `Application::cleanup`, the kube
finalizer helper annotating a handler failure with its phase
(`ApplyFailed` / `CleanupFailed`) — and maps the failure into
`Error::FinalizerError` (line 155). -/
def reconcile (app : Application) (event : FinalizerEvent)
    (rA : ReconcileResponses) (rC : CleanupResponses) (metrics : Metrics) :
    RustOutcome Error Action × Metrics :=
  let metrics := { metrics with reconciliations := metrics.reconciliations + 1 }
  match app.metadata_namespace with
  | none => (.panic "called Option::unwrap() on a None value", metrics)
  | some _ns =>
    let action : RustOutcome Error Action :=
      match event with
      | .Apply =>
        match (app.reconcile rA).outcome with
        | .ok a => .ok a
        | .err e => .err (Error.FinalizerError (.ApplyFailed e))
        | .panic m => .panic m
      | .Cleanup =>
        match (app.cleanup rC).1 with
        | .ok a => .ok a
        | .err e => .err (Error.FinalizerError (.CleanupFailed e))
        | .panic m => .panic m
    (action, metrics)

/-- `error_policy` (operator.rs lines 248-252): warn-log, increment the
`failures` counter, and return `Action::requeue(5 * 60)` seconds. -/
def error_policy (_error : Error) (metrics : Metrics) : Action × Metrics :=
  (Action.requeue (5 * 60), { metrics with failures := metrics.failures + 1 })

/-! ## Helper lemmas -/

/-- Whatever the store answers, `create_deployment` submits exactly one
create (the descriptor never fails to build, so the submission is always
reached). -/
theorem create_deployment_trace_eq (s : ApplicationSpec) (ns : String)
    (r : CreateDeploymentResponses) :
    (create_deployment s ns r).2 = [WorkloadCall.create] := by
  rcases r with ⟨c, g, p⟩
  unfold create_deployment
  rw [deploymentOfJson_build]
  rcases c with e | o
  · rcases e with code | tag
    · rcases g with ge | go <;> rcases p with pe | po <;>
        · dsimp only
          split <;> rfl
    · rfl
  · rcases g with ge | go <;> rcases p with pe | po <;>
      · dsimp only
        split <;> rfl

/-- `cleanup_deployment` submits exactly one delete. -/
theorem cleanup_deployment_trace_eq (s : ApplicationSpec) (ns : String)
    (d : Except KubeError (KEither Deployment KStatus)) :
    (cleanup_deployment s ns d).2 = [WorkloadCall.delete] := by
  rcases d with e | x <;> rfl

/-! ## Claims -/

/-- **C1 counterexample.** The claim says `cleanup_deployment` treats the
store's NotFound answer as a no-op success.  It does not: when the store
answers the delete with an API NotFound error (HTTP 404) — the answer an
already-absent workload produces — `cleanup_deployment` returns that error
instead of success. -/
theorem cleanup_deployment_notfound_is_error :
    cleanup_deployment ⟨"a", "nginx:1", true⟩ "default"
        (.error (.Api 404)) =
      (.err (.Api 404), [WorkloadCall.delete]) := by
  rfl

/-- **C1 (amended).** `cleanup_deployment` returns success exactly when the
store's delete call succeeds; every failure, including the NotFound answer
for an already-absent workload, propagates unchanged to the caller. -/
theorem cleanup_deployment_propagates_every_failure
    (s : ApplicationSpec) (ns : String)
    (d : Except KubeError (KEither Deployment KStatus)) :
    (cleanup_deployment s ns d).1 =
      match d with
      | .ok _ => .ok ()
      | .error e => .err e := by
  rcases d with e | x <;> rfl

/-- **C6.** `error_policy` ignores which failure it is given: it always
returns a requeue-after-300-seconds (5 minutes) directive, increments the
failure counter by exactly one, and leaves the reconciliation counter
unchanged. -/
theorem error_policy_flat_requeue (e : Error) (m : Metrics) :
    error_policy e m =
      (Action.requeue 300, ⟨m.reconciliations, m.failures + 1⟩) := by
  rfl

/-- **C2.** During Apply, `handle_deployment` submits exactly one create
when `spec.deploy` and the remembered `status.deployed` are both true,
exactly one delete when `status.deployed` was true but `spec.deploy` is
false, and nothing otherwise; in particular an object that was never
deployed (status absent or `deployed = false`) gets no create submission in
this cycle even when `spec.deploy = true`. -/
theorem handle_deployment_call_discipline (app : Application) (ns : String)
    (r : HandleDeploymentResponses) :
    ((handle_deployment app ns r).2 =
        if app.was_deployed && app.spec.deploy then [WorkloadCall.create]
        else if app.was_deployed && !app.spec.deploy then [WorkloadCall.delete]
        else [])
    ∧ ((app.status = none ∨ app.status.map (fun s => s.deployed) = some false) →
        (handle_deployment app ns r).2 = []) := by
  have hkey : (handle_deployment app ns r).2 =
      if app.was_deployed && app.spec.deploy then [WorkloadCall.create]
      else if app.was_deployed && !app.spec.deploy then [WorkloadCall.delete]
      else [] := by
    unfold handle_deployment
    cases hwd : app.was_deployed <;> cases hsd : app.spec.deploy <;>
        simp only [hwd, hsd, Bool.false_and, Bool.true_and, Bool.and_false,
          Bool.and_true, Bool.not_true, Bool.not_false, if_true, if_false,
          Bool.false_eq_true, ite_false, ite_true]
    · rcases hc : cleanup_deployment app.spec ns r.deleteR with ⟨out, t⟩
      have ht : t = [WorkloadCall.delete] := by
        have h := cleanup_deployment_trace_eq app.spec ns r.deleteR
        rw [hc] at h
        exact h
      cases out
      · rcases r.publishR with pe | po <;> exact ht
      · exact ht
      · exact ht
    · rcases hc : create_deployment app.spec ns r.createR with ⟨out, t⟩
      have ht : t = [WorkloadCall.create] := by
        have h := create_deployment_trace_eq app.spec ns r.createR
        rw [hc] at h
        exact h
      cases out
      · rcases r.publishR with pe | po <;> exact ht
      · exact ht
      · exact ht
  refine ⟨hkey, fun hnever => ?_⟩
  have hwd : app.was_deployed = false := by
    rcases hnever with hnone | hfalse
    · simp [Application.was_deployed, hnone]
    · rcases happ : app.status with _ | s
      · simp [Application.was_deployed, happ]
      · rw [happ] at hfalse
        simp only [Option.map_some', Option.some.injEq] at hfalse
        simp [Application.was_deployed, happ, hfalse]
  rw [hkey, hwd]
  simp

/-- **C2 witness.** A concrete never-deployed object with `deploy = true`
makes no workload submission. -/
theorem handle_deployment_call_discipline_witness :
    ((handle_deployment ⟨"app1", some "default", ⟨"a", "nginx:1", true⟩, none⟩
          "default" ⟨⟨.error (.Api 409), .ok none, .ok ()⟩, .error (.Api 404), .ok ()⟩).2 = []) ∧
    ((⟨"app1", some "default", ⟨"a", "nginx:1", true⟩, none⟩ : Application).status = none) :=
  ⟨(handle_deployment_call_discipline
        ⟨"app1", some "default", ⟨"a", "nginx:1", true⟩, none⟩ "default"
        ⟨⟨.error (.Api 409), .ok none, .ok ()⟩, .error (.Api 404), .ok ()⟩).2
      (Or.inl rfl),
   rfl⟩

/-- **C3 counterexample.** The claim says every submission failure other
than AlreadyExists propagates as an error.  It does not: when the store
answers the create with an API error whose code is not 409 (here 403,
Forbidden), `create_deployment` panics on `assert_eq!(ae.code, 409)` instead
of returning the error. -/
theorem create_deployment_forbidden_panics :
    create_deployment ⟨"a", "nginx:1", true⟩ "default"
        ⟨.error (.Api 403), .ok none, .ok ()⟩ =
      (.panic "assertion failed: ae.code == 409", [WorkloadCall.create]) := by
  rfl

/-- **C3 (amended).** The store's AlreadyExists answer (API code 409) to the
create submission is treated as success (the function then proceeds to the
get/publish steps); a non-API failure propagates as an error to the caller;
but an API failure with any code other than 409 aborts by a failed
assertion (a panic), not by an error return. -/
theorem create_deployment_submission_handling (s : ApplicationSpec) (ns : String) :
    (∀ g, (create_deployment s ns ⟨.error (.Api 409), .ok g, .ok ()⟩).1 = .ok ())
    ∧ (∀ tag g p, (create_deployment s ns ⟨.error (.other tag), g, p⟩).1 =
        .err (.other tag))
    ∧ (∀ code g p, code ≠ 409 →
        (create_deployment s ns ⟨.error (.Api code), g, p⟩).1 =
          .panic "assertion failed: ae.code == 409") := by
  refine ⟨fun g => ?_, fun tag g p => ?_, fun code g p hne => ?_⟩
  · unfold create_deployment
    rw [deploymentOfJson_build]
    rfl
  · unfold create_deployment
    rw [deploymentOfJson_build]
  · unfold create_deployment
    rw [deploymentOfJson_build]
    dsimp only
    rw [if_neg hne]

/-- **C3 witness.** Concrete instances of the three submission outcomes:
409 is success, a transport failure propagates, a 500 API answer panics. -/
theorem create_deployment_submission_handling_witness :
    ((create_deployment ⟨"a", "nginx:1", true⟩ "default"
        ⟨.error (.Api 409), .ok none, .ok ()⟩).1 = .ok ())
    ∧ ((create_deployment ⟨"a", "nginx:1", true⟩ "default"
        ⟨.error (.other "timeout"), .ok none, .ok ()⟩).1 = .err (.other "timeout"))
    ∧ ((500 : Nat) ≠ 409
        ∧ (create_deployment ⟨"a", "nginx:1", true⟩ "default"
            ⟨.error (.Api 500), .ok none, .ok ()⟩).1 =
          .panic "assertion failed: ae.code == 409") :=
  ⟨(create_deployment_submission_handling ⟨"a", "nginx:1", true⟩ "default").1 none,
   (create_deployment_submission_handling ⟨"a", "nginx:1", true⟩ "default").2.1
      "timeout" (.ok none) (.ok ()),
   by decide,
   (create_deployment_submission_handling ⟨"a", "nginx:1", true⟩ "default").2.2
      500 (.ok none) (.ok ()) (by decide)⟩

/-- **C4.** Whenever an Apply reconcile reaches the status-write step, the
patch it submits is exactly the force-applied, field-manager-"cntrlr"
document `{state: Running, deployed: spec.deploy}`, whichever deployment
branch ran before it. -/
theorem reconcile_status_patch_exact (self : Application)
    (r : ReconcileResponses) (p : PatchApply)
    (h : (self.reconcile r).statusPatch = some p) :
    p = ⟨"per.naess/v1alpha1", "Application",
         ⟨ApplicationState.Running, self.spec.deploy⟩, "cntrlr", true⟩ := by
  unfold Application.reconcile at h
  rcases hns : self.metadata_namespace with _ | ns
  · rw [hns] at h
    simp at h
  · rw [hns] at h
    dsimp only at h
    rcases hh : handle_deployment self ns r.handleR with ⟨out, t⟩
    rw [hh] at h
    cases out
    · rcases hp : r.patchStatusR with pe | pa <;> rw [hp] at h <;>
        · dsimp only at h
          exact (Option.some.injEq _ _ ▸ h).symm
    · simp at h
    · simp at h

/-- **C4 witness.** A concrete Apply run whose status write is reached:
the submitted patch is the expected document. -/
theorem reconcile_status_patch_exact_witness :
    ((Application.reconcile
        ⟨"app1", some "default", ⟨"a", "nginx:1", true⟩, none⟩
        ⟨⟨⟨.error (.Api 409), .ok none, .ok ()⟩, .error (.Api 404), .ok ()⟩,
          .ok ⟨"app1", some "default", ⟨"a", "nginx:1", true⟩, none⟩⟩).statusPatch =
      some ⟨"per.naess/v1alpha1", "Application",
            ⟨ApplicationState.Running, true⟩, "cntrlr", true⟩)
    ∧ (⟨"per.naess/v1alpha1", "Application",
          ⟨ApplicationState.Running, true⟩, "cntrlr", true⟩ : PatchApply) =
        ⟨"per.naess/v1alpha1", "Application",
          ⟨ApplicationState.Running, true⟩, "cntrlr", true⟩ :=
  ⟨rfl,
   reconcile_status_patch_exact
      ⟨"app1", some "default", ⟨"a", "nginx:1", true⟩, none⟩
      ⟨⟨⟨.error (.Api 409), .ok none, .ok ()⟩, .error (.Api 404), .ok ()⟩,
        .ok ⟨"app1", some "default", ⟨"a", "nginx:1", true⟩, none⟩⟩
      ⟨"per.naess/v1alpha1", "Application",
        ⟨ApplicationState.Running, true⟩, "cntrlr", true⟩
      rfl⟩

/-- **C5.** When the workload-manager step of an Apply reconcile fails, the
reconcile aborts with that error before any status patch is submitted, and
the top-level handler hands the error on annotated with the Apply phase
(`Error::FinalizerError(ApplyFailed(e))`), which the controller loop gives
to `error_policy`. -/
theorem workload_failure_aborts_before_status_patch
    (app : Application) (ns : String) (rA : ReconcileResponses)
    (rC : CleanupResponses) (m : Metrics) (e : KubeError)
    (calls : List WorkloadCall)
    (hns : app.metadata_namespace = some ns)
    (hfail : handle_deployment app ns rA.handleR = (.err e, calls)) :
    (app.reconcile rA).statusPatch = none
    ∧ (app.reconcile rA).outcome = .err e
    ∧ (reconcile app .Apply rA rC m).1 =
        .err (Error.FinalizerError (.ApplyFailed e)) := by
  have hrec : app.reconcile rA = ⟨.err e, calls, none⟩ := by
    unfold Application.reconcile
    rw [hns]
    dsimp only
    rw [hfail]
  refine ⟨by rw [hrec], by rw [hrec], ?_⟩
  unfold reconcile
  rw [hns]
  dsimp only
  rw [hrec]

/-- **C5 witness.** A concrete Apply run whose create submission fails with
a transport error: no status patch, and the phase-annotated error comes
back from the handler. -/
theorem workload_failure_aborts_before_status_patch_witness :
    ((⟨"app1", some "default", ⟨"a", "nginx:1", true⟩,
        some ⟨ApplicationState.Running, true⟩⟩ : Application).metadata_namespace =
      some "default")
    ∧ (handle_deployment
        ⟨"app1", some "default", ⟨"a", "nginx:1", true⟩,
          some ⟨ApplicationState.Running, true⟩⟩ "default"
        ⟨⟨.error (.other "timeout"), .ok none, .ok ()⟩, .error (.Api 404), .ok ()⟩ =
        (.err (.other "timeout"), [WorkloadCall.create]))
    ∧ ((Application.reconcile
          ⟨"app1", some "default", ⟨"a", "nginx:1", true⟩,
            some ⟨ApplicationState.Running, true⟩⟩
          ⟨⟨⟨.error (.other "timeout"), .ok none, .ok ()⟩, .error (.Api 404), .ok ()⟩,
            .ok ⟨"app1", some "default", ⟨"a", "nginx:1", true⟩, none⟩⟩).statusPatch = none
        ∧ (Application.reconcile
            ⟨"app1", some "default", ⟨"a", "nginx:1", true⟩,
              some ⟨ApplicationState.Running, true⟩⟩
            ⟨⟨⟨.error (.other "timeout"), .ok none, .ok ()⟩, .error (.Api 404), .ok ()⟩,
              .ok ⟨"app1", some "default", ⟨"a", "nginx:1", true⟩, none⟩⟩).outcome =
          .err (.other "timeout")
        ∧ (reconcile
            ⟨"app1", some "default", ⟨"a", "nginx:1", true⟩,
              some ⟨ApplicationState.Running, true⟩⟩ .Apply
            ⟨⟨⟨.error (.other "timeout"), .ok none, .ok ()⟩, .error (.Api 404), .ok ()⟩,
              .ok ⟨"app1", some "default", ⟨"a", "nginx:1", true⟩, none⟩⟩
            ⟨.error (.Api 404), .ok ()⟩ ⟨0, 0⟩).1 =
          .err (Error.FinalizerError (.ApplyFailed (.other "timeout")))) :=
  ⟨rfl, rfl,
   workload_failure_aborts_before_status_patch
      ⟨"app1", some "default", ⟨"a", "nginx:1", true⟩,
        some ⟨ApplicationState.Running, true⟩⟩ "default"
      ⟨⟨⟨.error (.other "timeout"), .ok none, .ok ()⟩, .error (.Api 404), .ok ()⟩,
        .ok ⟨"app1", some "default", ⟨"a", "nginx:1", true⟩, none⟩⟩
      ⟨.error (.Api 404), .ok ()⟩ ⟨0, 0⟩ (.other "timeout")
      [WorkloadCall.create] rfl rfl⟩

/-- **C7.** A successful Apply reconcile always returns the directive
`Requeue(5 * 60 seconds)`, and a successful Cleanup always returns
`AwaitChange`. -/
theorem success_scheduling_directives (app : Application) :
    (∀ r a, (app.reconcile r).outcome = .ok a → a = .requeue 300)
    ∧ (∀ rc a, (app.cleanup rc).1 = .ok a → a = .awaitChange) := by
  constructor
  · intro r a h
    unfold Application.reconcile at h
    rcases hns : app.metadata_namespace with _ | ns
    · rw [hns] at h
      simp at h
    · rw [hns] at h
      dsimp only at h
      rcases hh : handle_deployment app ns r.handleR with ⟨out, t⟩
      rw [hh] at h
      cases out
      · rcases hp : r.patchStatusR with pe | pa <;> rw [hp] at h <;> dsimp only at h
        · simp at h
        · rw [← (RustOutcome.ok.injEq _ _ ▸ h : Action.requeue (5 * 60) = a)]
      · simp at h
      · simp at h
  · intro rc a h
    unfold Application.cleanup at h
    rcases hns : app.metadata_namespace with _ | ns
    · rw [hns] at h
      simp at h
    · rw [hns] at h
      dsimp only at h
      rcases hc : cleanup_deployment app.spec ns rc.deleteR with ⟨out, t⟩
      rw [hc] at h
      cases out
      · rcases hp : rc.publishR with pe | po <;> rw [hp] at h <;> dsimp only at h
        · simp at h
        · rw [← (RustOutcome.ok.injEq _ _ ▸ h : Action.awaitChange = a)]
      · simp at h
      · simp at h

/-- **C7 witness.** A concrete successful Apply yields `Requeue(300 s)` and
a concrete successful Cleanup yields `AwaitChange`. -/
theorem success_scheduling_directives_witness :
    ((Application.reconcile
        ⟨"app1", some "default", ⟨"a", "nginx:1", true⟩, none⟩
        ⟨⟨⟨.error (.Api 409), .ok none, .ok ()⟩, .error (.Api 404), .ok ()⟩,
          .ok ⟨"app1", some "default", ⟨"a", "nginx:1", true⟩, none⟩⟩).outcome =
        .ok (Action.requeue 300)
      ∧ Action.requeue 300 = Action.requeue 300)
    ∧ ((Application.cleanup
          ⟨"app1", some "default", ⟨"a", "nginx:1", true⟩, none⟩
          ⟨.ok (.right ⟨"deleted"⟩), .ok ()⟩).1 = .ok Action.awaitChange
      ∧ Action.awaitChange = Action.awaitChange) :=
  ⟨⟨rfl,
    (success_scheduling_directives
        ⟨"app1", some "default", ⟨"a", "nginx:1", true⟩, none⟩).1
      ⟨⟨⟨.error (.Api 409), .ok none, .ok ()⟩, .error (.Api 404), .ok ()⟩,
        .ok ⟨"app1", some "default", ⟨"a", "nginx:1", true⟩, none⟩⟩
      (Action.requeue 300) rfl⟩,
   ⟨rfl,
    (success_scheduling_directives
        ⟨"app1", some "default", ⟨"a", "nginx:1", true⟩, none⟩).2
      ⟨.ok (.right ⟨"deleted"⟩), .ok ()⟩ Action.awaitChange rfl⟩⟩

/-- **C8.** The descriptor built and deserialized by `create_deployment`
parses successfully for every spec, its metadata name is `spec.name`, its
replica count is 2, and its pod template holds exactly one container, whose
name is `spec.name` and whose image is `spec.image`. -/
theorem created_descriptor_fields (s : ApplicationSpec) :
    deploymentOfJson (buildDeploymentJson s) = some (builtDeployment s)
    ∧ (builtDeployment s).metadata.name = some s.name
    ∧ ((builtDeployment s).spec.map DeploymentSpec.replicas) = some (some 2)
    ∧ ((builtDeployment s).spec.map
        (fun ds => ds.template.podSpec.map PodSpec.containers)) =
      some (some [⟨s.name, some s.image⟩]) :=
  ⟨deploymentOfJson_build s, rfl, rfl, rfl⟩

/-- **C9.** Both Apply (`Application::reconcile`), Cleanup
(`Application::cleanup`) and the top-level `reconcile` unwrap the object's
namespace, so an Application without a namespace makes the handler panic
rather than return an error. -/
theorem missing_namespace_panics (app : Application)
    (rA : ReconcileResponses) (rC : CleanupResponses) (m : Metrics)
    (ev : FinalizerEvent)
    (h : app.metadata_namespace = none) :
    (app.reconcile rA).outcome = .panic "called Option::unwrap() on a None value"
    ∧ (app.cleanup rC).1 = .panic "called Option::unwrap() on a None value"
    ∧ (reconcile app ev rA rC m).1 =
        .panic "called Option::unwrap() on a None value" := by
  refine ⟨?_, ?_, ?_⟩
  · unfold Application.reconcile
    rw [h]
  · unfold Application.cleanup
    rw [h]
  · unfold reconcile
    rw [h]

/-- **C9 witness.** A concrete Application without a namespace panics in
all three handlers. -/
theorem missing_namespace_panics_witness :
    ((⟨"app1", none, ⟨"a", "nginx:1", true⟩, none⟩ : Application).metadata_namespace
        = none)
    ∧ ((Application.reconcile ⟨"app1", none, ⟨"a", "nginx:1", true⟩, none⟩
          ⟨⟨⟨.error (.Api 409), .ok none, .ok ()⟩, .error (.Api 404), .ok ()⟩,
            .ok ⟨"app1", none, ⟨"a", "nginx:1", true⟩, none⟩⟩).outcome =
          .panic "called Option::unwrap() on a None value"
      ∧ (Application.cleanup ⟨"app1", none, ⟨"a", "nginx:1", true⟩, none⟩
          ⟨.error (.Api 404), .ok ()⟩).1 =
          .panic "called Option::unwrap() on a None value"
      ∧ (reconcile ⟨"app1", none, ⟨"a", "nginx:1", true⟩, none⟩ .Cleanup
          ⟨⟨⟨.error (.Api 409), .ok none, .ok ()⟩, .error (.Api 404), .ok ()⟩,
            .ok ⟨"app1", none, ⟨"a", "nginx:1", true⟩, none⟩⟩
          ⟨.error (.Api 404), .ok ()⟩ ⟨0, 0⟩).1 =
          .panic "called Option::unwrap() on a None value") :=
  ⟨rfl,
   missing_namespace_panics ⟨"app1", none, ⟨"a", "nginx:1", true⟩, none⟩
      ⟨⟨⟨.error (.Api 409), .ok none, .ok ()⟩, .error (.Api 404), .ok ()⟩,
        .ok ⟨"app1", none, ⟨"a", "nginx:1", true⟩, none⟩⟩
      ⟨.error (.Api 404), .ok ()⟩ ⟨0, 0⟩ .Cleanup rfl⟩

/-- **C10.** For every ApplicationSpec — any name and image strings — the
JSON-to-Deployment construction of `create_deployment` succeeds, so the
`expect` panic branch ("Something is wrong with the deployment") is
unreachable: no store answer can make `create_deployment` end in it. -/
theorem descriptor_construction_never_fails (s : ApplicationSpec) :
    (deploymentOfJson (buildDeploymentJson s)).isSome = true
    ∧ ∀ ns r, (create_deployment s ns r).1 ≠
        .panic "Something is wrong with the deployment" := by
  constructor
  · rw [deploymentOfJson_build]
    rfl
  · intro ns r
    rcases r with ⟨c, g, p⟩
    unfold create_deployment
    rw [deploymentOfJson_build]
    rcases c with e | o
    · rcases e with code | tag
      · dsimp only
        by_cases h409 : code = 409
        · rw [if_pos h409]
          rcases g with ge | go <;> rcases p with pe | po <;> simp
        · rw [if_neg h409]
          intro hcontra
          exact absurd (RustOutcome.panic.inj hcontra) (by decide)
      · rcases g with ge | go <;> rcases p with pe | po <;> simp
    · dsimp only
      by_cases hname : o.name_any = (builtDeployment s).name_any
      · rw [if_pos hname]
        rcases g with ge | go <;> rcases p with pe | po <;> simp
      · rw [if_neg hname]
        intro hcontra
        exact absurd (RustOutcome.panic.inj hcontra) (by decide)

/-- **C10 witness.** The construction succeeds and the expect branch is not
taken at a concrete spec and store answer. -/
theorem descriptor_construction_never_fails_witness :
    ((deploymentOfJson (buildDeploymentJson ⟨"a", "nginx:1", true⟩)).isSome = true)
    ∧ ((create_deployment ⟨"a", "nginx:1", true⟩ "default"
        ⟨.error (.Api 409), .ok none, .ok ()⟩).1 ≠
        .panic "Something is wrong with the deployment") :=
  ⟨(descriptor_construction_never_fails ⟨"a", "nginx:1", true⟩).1,
   (descriptor_construction_never_fails ⟨"a", "nginx:1", true⟩).2 "default"
      ⟨.error (.Api 409), .ok none, .ok ()⟩⟩

end RustKubeOperator
